import Mathlib

/-!
# Verification of the SQL integration core (`SqlIntegration.ts`)

Shallow embedding of `src/packages/back-end/src/integrations/SqlIntegration.ts`.
SQL-composing methods become Lean string builders; result-parsing methods become
pure functions over row records; the JavaScript number quirks that matter
(`parseInt`/`parseFloat` returning `NaN`, `x || 0` defaulting, comparisons with
`NaN`/`undefined` being false) are modelled with `Option` values (`none` = `NaN`
or `undefined`).
-/

namespace GrowthBook

/-! ## JavaScript primitive models -/

/-- Whitespace skipped by the JS `parseInt` / `parseFloat` builtins. -/
def jsWhitespace (c : Char) : Bool :=
  c = ' ' || c = '\t' || c = '\n' || c = '\r'

def jsDigit (c : Char) : Bool :=
  decide ('0' ≤ c) && decide (c ≤ '9')

def digitVal (c : Char) : Nat := c.toNat - 48

def digitsToNat (cs : List Char) : Nat :=
  cs.foldl (fun a c => 10 * a + digitVal c) 0

/-- Leading decimal digits of a character list, or `none` when there are none. -/
def leadingDigits (cs : List Char) : Option Nat :=
  let ds := cs.takeWhile jsDigit
  if ds.isEmpty then none else some (digitsToNat ds)

/-- Model of the JS builtin `parseInt(s)` (radix 10): skip leading whitespace,
optional sign, then leading decimal digits; `none` models `NaN` (no digits).
The rarely-used hexadecimal `0x` prefix form is not modelled; no input composed
in this development uses it. -/
def jsParseInt (s : String) : Option Int :=
  let cs := s.toList.dropWhile jsWhitespace
  match cs with
  | '-' :: rest => (leadingDigits rest).map (fun n => -(n : Int))
  | '+' :: rest => (leadingDigits rest).map (fun n => (n : Int))
  | _ => (leadingDigits cs).map (fun n => (n : Int))

/-- Exponent part of a JS float literal: optional sign then digits; JS ignores a
dangling exponent marker, yielding exponent 0. -/
def jsReadExp (cs : List Char) : Int :=
  match cs with
  | '-' :: rest => -((leadingDigits rest).getD 0 : Int)
  | '+' :: rest => ((leadingDigits rest).getD 0 : Int)
  | _ => ((leadingDigits cs).getD 0 : Int)

def pow10 (n : Nat) : Nat := 10 ^ n

/-- Unsigned decimal mantissa with optional fraction and exponent. `none` models
`NaN` (not a single digit before or after the point). The value
`intPart.fracPart × 10^expo` is built with `mkRat` over integer arithmetic,
which the kernel evaluates; it is the exact rational the digits denote. -/
def jsParseFloatCore (cs : List Char) : Option ℚ :=
  let intPart := cs.takeWhile jsDigit
  let rest1 := cs.dropWhile jsDigit
  let fracPart :=
    match rest1 with
    | '.' :: r => r.takeWhile jsDigit
    | _ => []
  let rest2 :=
    match rest1 with
    | '.' :: r => r.dropWhile jsDigit
    | _ => rest1
  if intPart.isEmpty ∧ fracPart.isEmpty then none
  else
    let expo : Int :=
      match rest2 with
      | 'e' :: r => jsReadExp r
      | 'E' :: r => jsReadExp r
      | _ => 0
    let num : Nat := digitsToNat intPart * pow10 fracPart.length + digitsToNat fracPart
    if 0 ≤ expo then
      some (mkRat (num * pow10 expo.toNat : Nat) (pow10 fracPart.length))
    else
      some (mkRat (num : Nat) (pow10 fracPart.length * pow10 (-expo).toNat))

/-- Model of the JS builtin `parseFloat(s)`; `none` models `NaN`. The special
`Infinity` literal is not modelled; no input composed here uses it. -/
def jsParseFloat (s : String) : Option ℚ :=
  let cs := s.toList.dropWhile jsWhitespace
  match cs with
  | '-' :: rest => (jsParseFloatCore rest).map (fun q => -q)
  | '+' :: rest => jsParseFloatCore rest
  | _ => jsParseFloatCore cs

/-- JS `x || 0` applied to a parse result: `NaN` (and `0` itself) becomes `0`. -/
def orZeroI (v : Option Int) : Int := v.getD 0

/-- JS `x || 0` applied to a float parse result. -/
def orZeroQ (v : Option ℚ) : ℚ := v.getD 0

/-- JS multiplication where either operand may be `NaN` (NaN propagates). -/
def jsMulQ (a b : Option ℚ) : Option ℚ :=
  match a, b with
  | some x, some y => some (x * y)
  | _, _ => none

/-- JS truthiness of an optional string: absent (`undefined`/`null`) and the
empty string are falsy. -/
def strTruthy (o : Option String) : Option String :=
  match o with
  | some s => if s = "" then none else some s
  | none => none

/-- First truthy string in a JS `a || b || c` chain. -/
def firstTruthy (l : List (Option String)) : Option String :=
  l.foldr (fun o acc => match strTruthy o with | some v => some v | none => acc) none

/-- A JS `a || b || ... || "fallback"` chain over optional strings. -/
def jsStrChain (l : List (Option String)) (fb : String) : String :=
  (firstTruthy l).getD fb

/-! ## Data model (types/metric.ts, types/datasource.ts, as used by the core) -/

inductive MetricType
  | binomial
  | count
  | duration
  | revenue
deriving DecidableEq

inductive IdType
  | user
  | anonymous
deriving DecidableEq

inductive VariationFormat
  | index
  | key
deriving DecidableEq

structure SqlCondition where
  column : String
  operator : String
  value : String
deriving DecidableEq

/-- The fields of `MetricInterface` read by `SqlIntegration`. An empty `column`
models a missing/empty value column (JS falsy); `cap = 0` models no cap. -/
structure MetricInterface where
  id : String
  name : String
  type : MetricType
  table : String
  column : String
  userIdType : IdType
  cap : Int
  conditions : List SqlCondition
  earlyStart : Bool
  userIdColumn : Option String
  anonymousIdColumn : Option String
  timestampColumn : Option String
deriving DecidableEq

/-- One logical-table section of `DataSourceSettings`; `none` = field absent. -/
structure SectionSettings where
  timestampColumn : Option String := none
  userIdColumn : Option String := none
  anonymousIdColumn : Option String := none
  table : Option String := none
  experimentIdColumn : Option String := none
  variationColumn : Option String := none
  variationFormat : Option VariationFormat := none
  urlColumn : Option String := none
deriving DecidableEq

structure DataSourceSettings where
  default : SectionSettings := {}
  experiments : SectionSettings := {}
  users : SectionSettings := {}
  pageviews : SectionSettings := {}
  identifies : SectionSettings := {}
deriving DecidableEq

/-- The constructor's merge of raw settings onto hard-coded defaults
(`SqlIntegration` constructor, lines 70-96): an object spread per section, so a
field present in the raw settings wins, an absent one inherits the default. -/
def mergeSettings (s : DataSourceSettings) : DataSourceSettings where
  default :=
    { s.default with
      timestampColumn := some (s.default.timestampColumn.getD "received_at")
      userIdColumn := some (s.default.userIdColumn.getD "user_id") }
  experiments :=
    { s.experiments with
      experimentIdColumn := some (s.experiments.experimentIdColumn.getD "experiment_id")
      table := some (s.experiments.table.getD "experiment_viewed")
      variationColumn := some (s.experiments.variationColumn.getD "variation_id")
      variationFormat := some (s.experiments.variationFormat.getD .index) }
  users := { s.users with table := some (s.users.table.getD "users") }
  pageviews :=
    { s.pageviews with
      table := some (s.pageviews.table.getD "pages")
      urlColumn := some (s.pageviews.urlColumn.getD "path") }
  identifies := { s.identifies with table := some (s.identifies.table.getD "identifies") }

inductive SettingsSection
  | default
  | experiments
  | users
  | pageviews
  | identifies
deriving DecidableEq

def DataSourceSettings.sectionOf (s : DataSourceSettings) : SettingsSection → SectionSettings
  | .default => s.default
  | .experiments => s.experiments
  | .users => s.users
  | .pageviews => s.pageviews
  | .identifies => s.identifies

/-- Model of `getUserIdColumn` (lines 1081-1096): metric override, then section setting,
then global default, then the literal `"user_id"`. -/
def getUserIdColumn (s : DataSourceSettings) (metric : Option MetricInterface)
    (sec : SettingsSection) : String :=
  jsStrChain
    [metric.bind (fun m => m.userIdColumn), (s.sectionOf sec).userIdColumn,
      s.default.userIdColumn] "user_id"

/-- Model of `getAnonymousIdColumn` (lines 1097-1107). -/
def getAnonymousIdColumn (s : DataSourceSettings) (metric : Option MetricInterface)
    (sec : SettingsSection) : String :=
  jsStrChain
    [metric.bind (fun m => m.anonymousIdColumn), (s.sectionOf sec).anonymousIdColumn,
      s.default.anonymousIdColumn] "anonymous_id"

/-- Model of `getTimestampColumn` (lines 1108-1118). -/
def getTimestampColumn (s : DataSourceSettings) (metric : Option MetricInterface)
    (sec : SettingsSection) : String :=
  jsStrChain
    [metric.bind (fun m => m.timestampColumn), (s.sectionOf sec).timestampColumn,
      s.default.timestampColumn] "received_at"

/-- Model of `getVariationColumn` (lines 1119-1121). -/
def getVariationColumn (s : DataSourceSettings) : String :=
  jsStrChain [s.experiments.variationColumn] "variation_id"

/-! ## Dialect string builders (lines 114-134) -/

/-- A JS `Date`, abstracted to the two components `toTimestamp` renders:
`toISOString().substr(0, 19).replace("T", " ")` = `date ++ " " ++ time`. -/
structure JsDate where
  date : String
  time : String
deriving DecidableEq

def toTimestamp (d : JsDate) : String := "\x27" ++ d.date ++ " " ++ d.time ++ "\x27"

/-- Model of `dateOnly` (lines 1029-1038): zeroes the time-of-day components. -/
def dateOnly (d : JsDate) : JsDate := { d with time := "00:00:00" }

/-- Model of `addDateInterval(col, days)` (lines 120-122): note the unit is days. -/
def addDateInterval (col : String) (days : Nat) : String :=
  col ++ " + INTERVAL \x27" ++ toString days ++ " days\x27"

/-- Model of `subtractHalfHour(col)` (lines 123-125). -/
def subtractHalfHour (col : String) : String :=
  col ++ " - INTERVAL \x2730 minutes\x27"

def regexMatch (col regex : String) : String :=
  col ++ " ~ \x27" ++ regex ++ "\x27"

def dateTrunc (col : String) : String :=
  "date_trunc(\x27day\x27, " ++ col ++ ")"

def dateDiff (startCol endCol : String) : String :=
  "datediff(day, " ++ startCol ++ ", " ++ endCol ++ ")"

theorem jsParseInt_checks :
    jsParseInt "abc" = none ∧ jsParseInt " -42x" = some (-42) ∧
    jsParseFloat "2.5" = some (mkRat 25 10) ∧ jsParseFloat "x" = none := by
  decide

theorem jsParseFloat_two_point_five : jsParseFloat "2.5" = some (5 / 2) := by
  rw [show jsParseFloat "2.5" = some (mkRat 25 10) from by decide]
  norm_num [mkRat]

theorem jsStrChain_check : jsStrChain [none, some "", some "a"] "b" = "a" := by decide

theorem addDateInterval_check : addDateInterval "t" 3 = "t + INTERVAL \x273 days\x27" := by
  decide

/-! ## Metric value/aggregate expression builders (lines 1040-1080) -/

/-- Model of `capValue` (lines 1040-1046): JS `!cap` is true exactly for `cap = 0`
(a numeric cap is either absent, modelled `0`, or a number). -/
def capValue (cap : Int) (value : String) : String :=
  if cap = 0 then value
  else "LEAST(" ++ toString cap ++ ", " ++ value ++ ")"

/-- Whether a string contains the given pattern (JS `s.match(/pat/)` truthy). -/
def containsPattern (s pat : String) : Bool :=
  decide (1 < (s.splitOn pat).length)

/-- Model of `getMetricColumn` (lines 1048-1056): for a duration metric whose column
expression embeds the placeholder `{alias}`, every occurrence is replaced with
the row alias; otherwise the column is qualified with the alias. -/
def getMetricColumn (metric : MetricInterface) (tableAlias : String) : String :=
  if metric.type = .duration ∧ containsPattern metric.column "{alias}" = true then
    String.intercalate tableAlias (metric.column.splitOn "{alias}")
  else tableAlias ++ "." ++ metric.column

/-- Model of `getRawMetricSqlValue` (lines 1058-1067). -/
def getRawMetricSqlValue (metric : MetricInterface) (tableAlias : String) : String :=
  match metric.type with
  | .count => if metric.column ≠ "" then getMetricColumn metric tableAlias else "1"
  | .duration => getMetricColumn metric tableAlias
  | .revenue => getMetricColumn metric tableAlias
  | .binomial => "1"

/-- Model of `getAggregateMetricSqlValue` (lines 1068-1080). -/
def getAggregateMetricSqlValue (metric : MetricInterface) (col : String) : String :=
  match metric.type with
  | .count =>
      capValue metric.cap
        ("COUNT(" ++ (if metric.column ≠ "" then "DISTINCT " ++ col else "*") ++ ")")
  | .duration => capValue metric.cap ("MAX(" ++ col ++ ")")
  | .revenue => capValue metric.cap ("MAX(" ++ col ++ ")")
  | .binomial => "1"

/-- Semantics of the SQL `LEAST(c, v)` clamp applied by `capValue`. -/
def leastSem (c v : ℚ) : ℚ := min c v

/-! ## Identity bridging and the metric CTE (lines 538-548, 841-896) -/

/-- Model of `getIdentifiesJoinSql` (lines 538-548): joins the identifies table under
the fixed single-letter alias `i`, bridging `column` to the requested space. -/
def getIdentifiesJoinSql (s : DataSourceSettings) (column : String) (userId : Bool) : String :=
  let identifiesColumn :=
    if userId then getUserIdColumn s none .identifies
    else getAnonymousIdColumn s none .identifies
  "JOIN " ++ jsStrChain [s.identifies.table] "identifies" ++ " i ON (\n      i."
    ++ identifiesColumn ++ " = " ++ column ++ "\n    )"

/-- Identifier-space mismatch between the requested space (`userId`) and the
metric's native space, as tested by `getMetricCTE` (lines 847-863). -/
def metricIdMismatch (metric : MetricInterface) (userId : Bool) : Prop :=
  (userId = true ∧ metric.userIdType = .anonymous) ∨
    (userId = false ∧ metric.userIdType = .user)

instance (metric : MetricInterface) (userId : Bool) :
    Decidable (metricIdMismatch metric userId) := by
  unfold metricIdMismatch; infer_instance

/-- The `userIdCol` variable of `getMetricCTE` (lines 846-871). -/
def metricCTEuserIdCol (s : DataSourceSettings) (metric : MetricInterface)
    (userId : Bool) : String :=
  if userId = true ∧ metric.userIdType = .anonymous then "i.user_id"
  else if userId = false ∧ metric.userIdType = .user then "i.user_id"
  else
    "m." ++ (if userId then getUserIdColumn s (some metric) .default
             else getAnonymousIdColumn s (some metric) .default)

/-- The `join` variable of `getMetricCTE` (lines 846-871); `none` models the
empty string (no identify join needed). -/
def metricCTEjoin (s : DataSourceSettings) (metric : MetricInterface)
    (userId : Bool) : Option String :=
  if userId = true ∧ metric.userIdType = .anonymous then
    some (getIdentifiesJoinSql s ("m." ++ getAnonymousIdColumn s (some metric) .default) false)
  else if userId = false ∧ metric.userIdType = .user then
    some (getIdentifiesJoinSql s ("m." ++ getUserIdColumn s (some metric) .default) true)
  else none

/-- The metric CTE's WHERE clause from the metric's conditions (lines 888-894). -/
def metricCTEwhere (metric : MetricInterface) : String :=
  if metric.conditions.length ≠ 0 then
    "WHERE " ++ String.intercalate " AND "
      (metric.conditions.map
        (fun c => "m." ++ c.column ++ " " ++ c.operator ++ " \x27" ++ c.value ++ "\x27"))
  else ""

/-- Everything of the metric CTE before the `conversion_end` select item:
comment, user id column, raw value, actual start (lines 875-879). -/
def metricCTEhead (s : DataSourceSettings) (metric : MetricInterface)
    (userId : Bool) : String :=
  "-- Metric (" ++ metric.name ++ ")\n      SELECT\n        "
    ++ metricCTEuserIdCol s metric userId ++ " as user_id,\n        "
    ++ getRawMetricSqlValue metric "m" ++ " as value,\n        "
    ++ ("m." ++ getTimestampColumn s (some metric) .default) ++ " as actual_start,\n        "

/-- Everything of the metric CTE after the `session_start` select item: table,
optional identify join, conditions (lines 885-895). -/
def metricCTEtail (s : DataSourceSettings) (metric : MetricInterface)
    (userId : Bool) : String :=
  "\n      FROM\n        " ++ metric.table ++ " m\n        "
    ++ (metricCTEjoin s metric userId).getD ""
    ++ "\n      " ++ metricCTEwhere metric ++ "\n    "

/-- Model of `getMetricCTE` (lines 841-896), assembled from the pieces above exactly in
source order: user id column, raw value, actual start, conversion end
(`addDateInterval`, i.e. plus `conversionWindowDays` days), session start
(`subtractHalfHour`), table, optional identify join, conditions. -/
def getMetricCTE (s : DataSourceSettings) (metric : MetricInterface)
    (conversionWindowDays : Nat) (userId : Bool) : String :=
  let timestampCol := "m." ++ getTimestampColumn s (some metric) .default
  metricCTEhead s metric userId
    ++ (addDateInterval timestampCol conversionWindowDays ++ " as conversion_end")
    ++ ",\n        "
    ++ (subtractHalfHour timestampCol ++ " as session_start")
    ++ metricCTEtail s metric userId

/-! ## Percentile ladder and the metric value query (lines 22-36, 227-345) -/

/-- Model of `percentileNumbers` (lines 22-36). The source's decimal literals are exact
rationals here, written with `mkRat` so the kernel can compute with them;
`percentileNumbers_eq` checks them against the literals. -/
def percentileNumbers : List ℚ :=
  [mkRat 1 100, mkRat 5 100, mkRat 1 10, mkRat 2 10, mkRat 3 10, mkRat 4 10,
    mkRat 5 10, mkRat 6 10, mkRat 7 10, mkRat 8 10, mkRat 9 10, mkRat 95 100,
    mkRat 99 100]

theorem percentileNumbers_eq :
    percentileNumbers =
      [0.01, 0.05, 0.1, 0.2, 0.3, 0.4, 0.5, 0.6, 0.7, 0.8, 0.9, 0.95, 0.99] := by
  norm_num [percentileNumbers, mkRat]

/-- The product `n * 100`, computed on the numerator so the kernel can evaluate it;
`timesHundred_eq` relates it to the source's multiplication. -/
def timesHundred (n : ℚ) : ℚ := mkRat (n.num * 100) n.den

theorem timesHundred_eq (n : ℚ) : timesHundred n = n * 100 := by
  rw [timesHundred, Rat.mkRat_eq_div]
  push_cast
  conv_rhs => rw [← Rat.num_div_den n]
  ring

/-- The percentile column name `p${Math.floor(n * 100)}` (line 313). For every
entry of `percentileNumbers` the JS double computation `Math.floor(n * 100)`
yields the same integer as the exact rational floor taken here (each product
rounds to the exact integer in IEEE double arithmetic). -/
def percentileColName (n : ℚ) : String :=
  "p" ++ toString (Rat.floor (timesHundred n))

theorem percentileColName_values :
    percentileNumbers.map percentileColName =
      ["p1", "p5", "p10", "p20", "p30", "p40", "p50", "p60", "p70", "p80",
        "p90", "p95", "p99"] := by decide

/-- The parameters of `getMetricValueQuery` / `getPageUsersCTE`. The `from` and
`to` dates are JS `Date` values (see `JsDate`); `urlRegex = ""` models an
absent url filter; `segmentQuery = none` models `null`. -/
structure MetricValueParams where
  name : String
  metric : MetricInterface
  conversionWindow : Nat
  userIdType : IdType
  includeByDate : Bool
  includePercentiles : Bool
  urlRegex : String
  segmentQuery : Option String
  segmentName : String
  fromDate : JsDate
  toDate : JsDate
deriving DecidableEq

/-- Model of `getPageUsersCTE` (lines 992-1027). -/
def getPageUsersCTE (s : DataSourceSettings) (p : MetricValueParams)
    (userId : Bool) : String :=
  let timestampCol := getTimestampColumn s none .pageviews
  let userIdCol :=
    if userId then getUserIdColumn s none .pageviews
    else getAnonymousIdColumn s none .pageviews
  "-- Users visiting specific pages\n    SELECT\n      "
    ++ userIdCol ++ " as user_id,\n      MIN(" ++ timestampCol
    ++ ") as actual_start,\n      "
    ++ addDateInterval ("MIN(" ++ timestampCol ++ ")") p.conversionWindow
    ++ " as conversion_end,\n      "
    ++ subtractHalfHour ("MIN(" ++ timestampCol ++ ")")
    ++ " as session_start\n    FROM\n      "
    ++ jsStrChain [s.pageviews.table] "pages"
    ++ "\n    WHERE\n      " ++ timestampCol ++ " >= "
    ++ toTimestamp (dateOnly p.fromDate)
    ++ "\n      AND " ++ timestampCol ++ " <= " ++ toTimestamp (dateOnly p.toDate)
    ++ (if p.urlRegex ≠ "" ∧ p.urlRegex ≠ ".*" then
          "\n      AND " ++ regexMatch (jsStrChain [s.pageviews.urlColumn] "path") p.urlRegex
        else "")
    ++ "\n    GROUP BY\n      " ++ userIdCol

/-- Model of `getSegmentCTE` (lines 956-972). -/
def getSegmentCTE (s : DataSourceSettings) (sql name : String) (userId : Bool) : String :=
  if userId = false then
    "-- Segment (" ++ name ++ ")\n      SELECT\n        i.user_id,\n        s.date\n      FROM\n        ("
      ++ sql ++ ") s\n        " ++ getIdentifiesJoinSql s "s.user_id" true ++ "\n      "
  else "-- Segment (" ++ name ++ ")\n    " ++ sql ++ "\n    "

/-- The percentile select items of the terminal (overall) SELECT of
`getMetricValueQuery` (lines 308-317): one `(name, expression)` pair per ladder
entry, present exactly when percentiles are requested and the metric is not
binomial. `percentile` is the abstract dialect method `percentile(col, n)`. -/
def metricValuePercentileSelects (percentile : String → ℚ → String)
    (p : MetricValueParams) : List (String × String) :=
  if p.includePercentiles = true ∧ p.metric.type ≠ .binomial then
    percentileNumbers.map (fun n => (percentileColName n, percentile "value" n))
  else []

/-- The percentile select items of the per-date UNION branch of
`getMetricValueQuery` (lines 328-334): the same names, but every expression is
the literal constant `0`. -/
def metricValueUnionPercentileSelects (p : MetricValueParams) :
    List (String × String) :=
  if p.includePercentiles = true ∧ p.metric.type ≠ .binomial then
    percentileNumbers.map (fun n => (percentileColName n, "0"))
  else []

/-- Renders a percentile select-item list the way the template does
(lines 310-316 and 330-333): empty condition gives the empty string. -/
def renderPercentileFragment (cols : List (String × String)) : String :=
  if cols.isEmpty then ""
  else "," ++ String.intercalate "\n      ,"
    (cols.map (fun c => c.2 ++ " as " ++ c.1))

/-- Everything of `getMetricValueQuery` before the overall percentile fragment
(lines 231-307): the CTE chain and the head of the terminal SELECT. -/
def metricValueQueryHead (s : DataSourceSettings) (p : MetricValueParams) : String :=
  let userId : Bool := decide (p.userIdType = .user)
  let joinCond :=
    "\n            JOIN __metric m ON (\n              m.user_id = d.user_id\n              AND m.actual_start >= d."
      ++ (if p.metric.earlyStart then "session_start" else "actual_start")
      ++ "\n              AND m.actual_start <= d.conversion_end\n            )"
  "-- " ++ p.name ++ " - " ++ p.metric.name ++ " Metric\n      WITH\n        __users as ("
    ++ getPageUsersCTE s p userId ++ ")\n        "
    ++ (match p.segmentQuery with
        | some sq => ", segment as (" ++ getSegmentCTE s sq p.segmentName userId ++ ")"
        | none => "")
    ++ "\n        , __metric as ("
    ++ getMetricCTE s p.metric p.conversionWindow userId
    ++ ")\n        , __distinctUsers as (\n          SELECT\n            u.user_id,\n            MIN(u.conversion_end) as conversion_end,\n            MIN(u.session_start) as session_start,\n            MIN(u.actual_start) as actual_start\n          FROM\n            __users u\n            "
    ++ (if p.segmentQuery.isSome then
          "JOIN segment s ON (s.user_id = u.user_id AND s.date <= u.actual_start)"
        else "")
    ++ "\n          GROUP BY\n            u.user_id\n        )\n        , __userMetric as (\n          SELECT\n            "
    ++ getAggregateMetricSqlValue p.metric "m.value"
    ++ " as value\n          FROM\n            __distinctUsers d" ++ joinCond
    ++ "\n          GROUP BY\n            d.user_id\n        )\n        "
    ++ (if p.includeByDate then
          ", __userMetricDates as (\n            SELECT\n              "
            ++ dateTrunc "d.actual_start" ++ " as date,\n              "
            ++ getAggregateMetricSqlValue p.metric "m.value"
            ++ " as value\n            FROM\n              __distinctUsers d" ++ joinCond
            ++ "\n            GROUP BY\n              " ++ dateTrunc "d.actual_start"
            ++ ",\n              d.user_id\n          )"
        else "")
    ++ "\n      SELECT\n        "
    ++ (if p.includeByDate then "null as date," else "")
    ++ "\n        COUNT(*) as count,\n        AVG(value) as mean,\n        STDDEV(value) as stddev\n        "

/-- The per-date UNION branch of the terminal select (lines 320-343), split
around its percentile fragment. -/
def metricValueUnionHead : String :=
  "UNION SELECT\n          date,\n          COUNT(*) as count,\n          AVG(value) as mean,\n          STDDEV(value) as stddev\n          "

def metricValueUnionTail : String :=
  "\n        FROM\n          __userMetricDates d\n        GROUP BY\n          date\n        ORDER BY\n          date ASC\n      "

/-- Model of `getMetricValueQuery` (lines 227-345): head, overall percentile fragment,
`from __userMetric`, then the per-date UNION branch when `includeByDate`. -/
def getMetricValueQuery (s : DataSourceSettings) (percentile : String → ℚ → String)
    (p : MetricValueParams) : String :=
  metricValueQueryHead s p
    ++ renderPercentileFragment (metricValuePercentileSelects percentile p)
    ++ "\n      from\n        __userMetric\n      "
    ++ (if p.includeByDate then
          metricValueUnionHead
            ++ renderPercentileFragment (metricValueUnionPercentileSelects p)
            ++ metricValueUnionTail
        else "")

/-! ## Result parsers (lines 211-225, 395-450) -/

/-- JS truthiness of the optional `date` column (`if (date)`): absent and the
empty string are falsy. -/
def dateTruthy (d : Option String) : Bool :=
  match d with
  | some s => decide (s ≠ "")
  | none => false

structure UsersQueryResponseRow where
  date : Option String
  users : String
deriving DecidableEq

/-- The `UsersResult` record; `dates = []` models the absent `dates` field. -/
structure UsersResult where
  users : Int
  dates : List (String × Int)
deriving DecidableEq

/-- The row loop of `runUsersQuery` (lines 395-414): a dated row is pushed onto
the per-date series, an undated row overwrites the overall count; every numeric
field is `parseInt(x) || 0`. -/
def runUsersQueryParse (rows : List UsersQueryResponseRow) : UsersResult :=
  rows.foldl
    (fun ret row =>
      if dateTruthy row.date then
        { ret with
          dates := ret.dates ++ [(row.date.getD "", orZeroI (jsParseInt row.users))] }
      else { ret with users := orZeroI (jsParseInt row.users) })
    { users := 0, dates := [] }

/-- A row returned to `runMetricValueQuery`; `percentiles` are the
rest-destructured extra columns in source order. -/
structure MetricValueQueryResponseRow where
  date : Option String
  count : String
  mean : String
  stddev : String
  percentiles : List (String × String)
deriving DecidableEq

/-- The `MetricValueResult` record; empty lists model the absent optional fields. The
percentile map keeps JS object assignment order (later assignment to the same
key is a later list entry). -/
structure MetricValueResult where
  count : Int
  mean : ℚ
  stddev : ℚ
  percentiles : List (String × Int)
  dates : List (String × Int × ℚ × ℚ)
deriving DecidableEq

/-- Model of `p.replace(/^p/, "")`: strips at most one leading `p`. -/
def stripLeadingP (s : String) : String :=
  match s.toList with
  | 'p' :: rest => String.mk rest
  | _ => s

/-- The row loop of `runMetricValueQuery` (lines 415-450): dated rows extend
the series; the undated row sets count/mean/stddev and the percentile map;
every numeric field defaults to 0 on parse failure. -/
def runMetricValueQueryParse (rows : List MetricValueQueryResponseRow) :
    MetricValueResult :=
  rows.foldl
    (fun ret row =>
      if dateTruthy row.date then
        { ret with
          dates := ret.dates ++
            [(row.date.getD "", orZeroI (jsParseInt row.count),
              orZeroQ (jsParseFloat row.mean), orZeroQ (jsParseFloat row.stddev))] }
      else
        { ret with
          count := orZeroI (jsParseInt row.count)
          mean := orZeroQ (jsParseFloat row.mean)
          stddev := orZeroQ (jsParseFloat row.stddev)
          percentiles := ret.percentiles ++
            row.percentiles.map (fun pr => (stripLeadingP pr.1, orZeroI (jsParseInt pr.2))) })
    { count := 0, mean := 0, stddev := 0, percentiles := [], dates := [] }

structure PastExperimentResponseRow where
  experiment_id : String
  variation_id : String
  start_date : String
  end_date : String
  users : String
deriving DecidableEq

/-- One parsed past-experiment row. `users` is `parseInt(r.users)` with no
`|| 0` default, so `none` models the `NaN` an unparsable count produces; the
two dates are kept as the strings handed to `new Date(...)`. -/
structure PastExperimentRow where
  users : Option Int
  end_date : String
  start_date : String
  experiment_id : String
  variation_id : String
deriving DecidableEq

/-- Model of `runPastExperimentQuery` (lines 211-225): a plain `map`, so no row is ever
dropped and nothing raises. -/
def runPastExperimentQueryParse (rows : List PastExperimentResponseRow) :
    List PastExperimentRow :=
  rows.map (fun r =>
    { users := jsParseInt r.users
      end_date := r.end_date
      start_date := r.start_date
      experiment_id := r.experiment_id
      variation_id := r.variation_id })

/-! ## Impact estimation (lines 452-536) -/

structure ImpactEstimationResult where
  query : String
  users : ℚ
  value : ℚ
  metricTotal : ℚ
deriving DecidableEq

structure MetricValueRawRow where
  count : String
  mean : String
deriving DecidableEq

/-- The result assembly of `getImpactEstimation` (lines 496-535), after the
three SQL texts have been composed and run. `format` is the external
`sqlFormatter.format`; the three row lists are the query responses. The
function is total: it never raises. The non-empty branch requires a first row
in all three responses (`users[0] && metricTotal[0] && value[0]`); otherwise
every number degrades to 0. Each rate is `(parseInt(...) * parseFloat(...) ||
0) / 30` with NaN propagating into the `|| 0`. -/
def getImpactEstimation (format : String → String)
    (usersSql metricSql valueSql : String)
    (users : List UsersQueryResponseRow)
    (metricTotal value : List MetricValueRawRow) : ImpactEstimationResult :=
  let formatted :=
    String.intercalate ";\n\n" ([usersSql, metricSql, valueSql].map format) ++ ";"
  match users, metricTotal, value with
  | u0 :: _, m0 :: _, v0 :: _ =>
      { query := formatted
        users := orZeroQ ((jsParseInt u0.users).map (fun n => mkRat n 1)) / 30
        value :=
          orZeroQ (jsMulQ ((jsParseInt v0.count).map (fun n => mkRat n 1))
            (jsParseFloat v0.mean)) / 30
        metricTotal :=
          orZeroQ (jsMulQ ((jsParseInt m0.count).map (fun n => mkRat n 1))
            (jsParseFloat m0.mean)) / 30 }
  | _, _, _ => { query := formatted, users := 0, value := 0, metricTotal := 0 }

/-! ## Past-experiment discovery pipeline (lines 136-210)

The SQL of `getPastExperimentQuery` groups, joins and filters per
experiment-variation; the relational semantics for one experiment-variation
group is modelled below over its list of `(day, distinct-user-count)` rows. -/

/-- One row of the `__experimentDates` CTE for a single experiment-variation:
a day (as a day number; `date_trunc` is already applied) and its
`count(distinct ...)` of users. -/
structure ExperimentDateRow where
  date : Int
  users : Nat
deriving DecidableEq

/-- Model of `__userThresholds` (lines 165-179): over the days with `users > 5` only,
`max(users) * 0.05`; `none` when no day has more than 5 users (then this
experiment-variation has no threshold row and the later inner join keeps
nothing). The threshold `peak * 0.05` is written `mkRat (peak * 5) 100` so the
kernel can compute; `threshold_value` checks it against the literal. -/
def userThreshold (days : List ExperimentDateRow) : Option ℚ :=
  (((days.filter (fun d => 5 < d.users)).map (fun d => d.users)).max?).map
    (fun (peak : Nat) => mkRat (peak * 5 : Nat) 100)

theorem threshold_value (peak : Nat) :
    mkRat (peak * 5 : Nat) 100 = (peak : ℚ) * 0.05 := by
  rw [Rat.mkRat_eq_div]
  push_cast
  norm_num
  ring

/-- Model of `__variations` (lines 180-196): inner-join days whose user count strictly
exceeds the threshold (`d.users > u.threshold`), then collapse to
`(MIN(date), MAX(date), SUM(users))`; `none` when nothing survives. -/
def variationsRow (days : List ExperimentDateRow) : Option (Int × Int × Nat) :=
  match userThreshold days with
  | none => none
  | some t =>
      let kept := days.filter (fun d => t < mkRat d.users 1)
      match (kept.map (fun d => d.date)).min?, (kept.map (fun d => d.date)).max? with
      | some s, some e => some (s, e, (kept.map (fun d => d.users)).sum)
      | _, _ => none

/-- The terminal filter (lines 197-209): `users > 200`,
`datediff(day, start_date, end_date) > 5` and
`datediff(day, from, start_date) > 2` — with `datediff(day, a, b) = b - a` on
day numbers. -/
def pastExperimentFinalFilter (fromDate : Int) (r : Int × Int × Nat) : Bool :=
  decide (200 < r.2.2) && decide (5 < r.2.1 - r.1) && decide (2 < r.1 - fromDate)

/-- The full per-experiment-variation semantics of `getPastExperimentQuery`. -/
def pastExperimentPipeline (fromDate : Int) (days : List ExperimentDateRow) :
    Option (Int × Int × Nat) :=
  (variationsRow days).bind
    (fun r => if pastExperimentFinalFilter fromDate r then some r else none)

/-- The pipeline exactly as claim C3 (and the spec) narrates it: compute the
threshold as 5% of the variation's peak daily count, discard days at or below
an absolute floor of 5 users, then discard days below the threshold, collapse,
and apply the final filter. This is a refinement model built from the spec's
words, for comparison with `pastExperimentPipeline`. -/
def specPastExperimentPipeline (fromDate : Int) (days : List ExperimentDateRow) :
    Option (Int × Int × Nat) :=
  match ((days.map (fun d => d.users)).max?).map
      (fun (peak : Nat) => mkRat (peak * 5 : Nat) 100) with
  | none => none
  | some t =>
      let floored := days.filter (fun d => 5 < d.users)
      let kept := floored.filter (fun d => ¬(mkRat d.users 1 < t))
      match (kept.map (fun d => d.date)).min?, (kept.map (fun d => d.date)).max? with
      | some s, some e =>
          let r := (s, e, (kept.map (fun d => d.users)).sum)
          if pastExperimentFinalFilter fromDate r then some r else none
      | _, _ => none

/-- The amended pipeline: the 5-user floor applies only inside the peak
computation (days with at most 5 users never raise the peak, and a variation
with no day above 5 users is discarded entirely), and a day is kept exactly
when its count is strictly above the threshold, equivalently when
`20 * users > peak`. Collapse and final filter as in the claim. -/
def amendedPastExperimentPipeline (fromDate : Int) (days : List ExperimentDateRow) :
    Option (Int × Int × Nat) :=
  match ((days.filter (fun d => 5 < d.users)).map (fun d => d.users)).max? with
  | none => none
  | some peak =>
      let kept := days.filter (fun d => peak < 20 * d.users)
      match (kept.map (fun d => d.date)).min?, (kept.map (fun d => d.date)).max? with
      | some s, some e =>
          let r := (s, e, (kept.map (fun d => d.users)).sum)
          if pastExperimentFinalFilter fromDate r then some r else none
      | _, _ => none

/-- The threshold comparison in integer form. -/
theorem threshold_lt_iff (peak u : Nat) :
    (mkRat (peak * 5 : Nat) 100 < mkRat (u : Nat) 1) ↔ peak < 20 * u := by
  rw [Rat.mkRat_eq_div, Rat.mkRat_eq_div]
  push_cast
  rw [div_one, div_lt_iff₀ (by norm_num)]
  constructor
  · intro h
    by_contra hc
    push_neg at hc
    have : (20 * u : ℚ) ≤ (peak : ℚ) := by exact_mod_cast hc
    nlinarith
  · intro h
    have : (peak : ℚ) < (20 * u : ℚ) := by exact_mod_cast h
    nlinarith

/-! ## Experiment results merge (`getExperimentResults`, lines 719-839) -/

/-- Model of `variationKeyMap` (lines 726-729) built by `Map.set` in order; with
`jsMapGet` modelling `Map.get`, a duplicate key keeps the last index. -/
def variationKeyMap (keys : List String) : List (String × Nat) :=
  keys.enum.map (fun p => (p.2, p.1))

def jsMapGet (m : List (String × Nat)) (k : String) : Option Nat :=
  m.reverse.lookup k

/-- The experiment data the merge depends on: the declared variation order
(whose keys feed `variationKeyMap` and whose length bounds the index) and the
source's configured variation format. -/
structure ExperimentContext where
  variationKeys : List String
  variationFormat : VariationFormat
deriving DecidableEq

/-- Variation resolution (lines 774-777 and 810-813): key-format looks the
string up in the key map (`none` models `undefined` for an absent key);
index-format is `parseInt` (`none` models `NaN`). -/
def resolveVarIndex (ctx : ExperimentContext) (variation : String) : Option Int :=
  match ctx.variationFormat with
  | .key => (jsMapGet (variationKeyMap ctx.variationKeys) variation).map (fun n => (n : Int))
  | .index => jsParseInt variation

/-- The skip guard `varIndex < 0 || varIndex >= experiment.variations.length`
(lines 779 and 814). In JS both comparisons are false when `varIndex` is
`undefined` or `NaN`, so such a row is NOT skipped; the guard fires only for an
actual number out of range. -/
def guardSkips (v : Option Int) (len : Nat) : Bool :=
  match v with
  | none => false
  | some i => decide (i < 0) || decide ((len : Int) ≤ i)

/-- One per-metric summary pushed by the metric-row loop (lines 785-790). -/
structure VariationMetricResult where
  metric : String
  count : Int
  mean : ℚ
  stddev : ℚ
deriving DecidableEq

/-- One per-variation bucket (lines 745-751). The JS bucket array is indexed
by `varIndex`; an `undefined`/`NaN` index lands in a named property of the
array object, modelled here by the key `none`. -/
structure VariationBucket where
  variation : Option Int
  users : Int
  metrics : List VariationMetricResult
deriving DecidableEq

/-- The contents of the shared `dimensionMap`, as a lookup from dimension value
and variation key to bucket. -/
def DimensionMap : Type := String → Option Int → Option VariationBucket

/-- Model of `getDimensionData` (lines 738-754): look up, creating an empty bucket with
`users = 0` and no metrics on first touch. -/
def getDimensionData (st : DimensionMap) (dimension : String) (v : Option Int) :
    VariationBucket :=
  (st dimension v).getD { variation := v, users := 0, metrics := [] }

def setBucket (st : DimensionMap) (dimension : String) (v : Option Int)
    (b : VariationBucket) : DimensionMap :=
  fun d2 v2 => if d2 = dimension ∧ v2 = v then some b else st d2 v2

structure ExperimentMetricRow where
  variation : String
  dimension : String
  count : String
  mean : String
  stddev : String
deriving DecidableEq

structure ExperimentUsersRow where
  variation : String
  dimension : String
  users : String
deriving DecidableEq

/-- Merge state: the dimension map plus the diagnostics emitted by
`console.log("Unexpected variation", variation)`. -/
structure MergeState where
  map : DimensionMap
  diagnostics : List String

def emptyMergeState : MergeState := { map := fun _ _ => none, diagnostics := [] }

/-- The metric entry a metric-query row contributes (lines 785-790). -/
def metricRowEntry (metricId : String) (row : ExperimentMetricRow) :
    VariationMetricResult :=
  { metric := metricId
    count := orZeroI (jsParseInt row.count)
    mean := orZeroQ (jsParseFloat row.mean)
    stddev := orZeroQ (jsParseFloat row.stddev) }

/-- The body of the metric-query row loop (lines 773-791). -/
def processMetricRow (ctx : ExperimentContext) (metricId : String)
    (st : MergeState) (row : ExperimentMetricRow) : MergeState :=
  let varIndex := resolveVarIndex ctx row.variation
  if guardSkips varIndex ctx.variationKeys.length then
    { st with diagnostics := st.diagnostics ++ ["Unexpected variation " ++ row.variation] }
  else
    let data := getDimensionData st.map row.dimension varIndex
    { st with
      map := setBucket st.map row.dimension varIndex
        { data with metrics := data.metrics ++ [metricRowEntry metricId row] } }

/-- The body of the users-query row loop (lines 809-821). -/
def processUsersRow (ctx : ExperimentContext) (st : MergeState)
    (row : ExperimentUsersRow) : MergeState :=
  let varIndex := resolveVarIndex ctx row.variation
  if guardSkips varIndex ctx.variationKeys.length then
    { st with diagnostics := st.diagnostics ++ ["Unexpected variation " ++ row.variation] }
  else
    let data := getDimensionData st.map row.dimension varIndex
    { st with
      map := setBucket st.map row.dimension varIndex
        { data with users := orZeroI (jsParseInt row.users) } }

/-- One completed query: a metric query's rows tagged with the metric id, or
the users query's rows. -/
inductive QueryOutcome
  | metric (id : String) (rows : List ExperimentMetricRow)
  | users (rows : List ExperimentUsersRow)
deriving DecidableEq

def processOutcome (ctx : ExperimentContext) (st : MergeState) :
    QueryOutcome → MergeState
  | .metric id rows => rows.foldl (processMetricRow ctx id) st
  | .users rows => rows.foldl (processUsersRow ctx) st

/-- The merge of `getExperimentResults` over the completed queries in
completion order: each `runQuery` continuation mutates the shared
`dimensionMap` as it resolves, so the fold order is the completion order. -/
def mergeOutcomes (ctx : ExperimentContext) (outcomes : List QueryOutcome) :
    MergeState :=
  outcomes.foldl (processOutcome ctx) emptyMergeState

def isUsersOutcome : QueryOutcome → Bool
  | .users _ => true
  | .metric _ _ => false

/-! ### Characterisation of the merge per bucket, for the order-independence
analysis: the actions a single bucket `(dimension, v)` receives. -/

/-- An update a row performs on one bucket: push a metric entry, or set the
users count. -/
inductive BucketAct
  | push (e : VariationMetricResult)
  | setU (u : Int)
deriving DecidableEq

def metricRowAct (ctx : ExperimentContext) (metricId : String) (dimension : String)
    (v : Option Int) (row : ExperimentMetricRow) : Option BucketAct :=
  let varIndex := resolveVarIndex ctx row.variation
  if guardSkips varIndex ctx.variationKeys.length then none
  else if row.dimension = dimension ∧ varIndex = v then
    some (.push (metricRowEntry metricId row))
  else none

def usersRowAct (ctx : ExperimentContext) (dimension : String) (v : Option Int)
    (row : ExperimentUsersRow) : Option BucketAct :=
  let varIndex := resolveVarIndex ctx row.variation
  if guardSkips varIndex ctx.variationKeys.length then none
  else if row.dimension = dimension ∧ varIndex = v then
    some (.setU (orZeroI (jsParseInt row.users)))
  else none

def outcomeActs (ctx : ExperimentContext) (dimension : String) (v : Option Int) :
    QueryOutcome → List BucketAct
  | .metric id rows => rows.filterMap (metricRowAct ctx id dimension v)
  | .users rows => rows.filterMap (usersRowAct ctx dimension v)

def applyAct (v : Option Int) (b : Option VariationBucket) (a : BucketAct) :
    Option VariationBucket :=
  let cur := b.getD { variation := v, users := 0, metrics := [] }
  match a with
  | .push e => some { cur with metrics := cur.metrics ++ [e] }
  | .setU u => some { cur with users := u }

def actsMetrics (acts : List BucketAct) : List VariationMetricResult :=
  acts.filterMap (fun a => match a with | .push e => some e | .setU _ => none)

def actsUsersWrites (acts : List BucketAct) : List Int :=
  acts.filterMap (fun a => match a with | .setU u => some u | .push _ => none)

/-- The last users value written, or the default when none was. -/
def lastWriteD (d : Int) (ws : List Int) : Int :=
  ws.foldl (fun _ w => w) d

/-- The bucket a fold starts from: the existing one, or the fresh bucket
`getDimensionData` creates. -/
def initBucket (v : Option Int) (b : Option VariationBucket) : VariationBucket :=
  b.getD { variation := v, users := 0, metrics := [] }

theorem processMetricRow_map (ctx : ExperimentContext) (metricId : String)
    (st : MergeState) (row : ExperimentMetricRow) (d : String) (v : Option Int) :
    (processMetricRow ctx metricId st row).map d v =
      match metricRowAct ctx metricId d v row with
      | none => st.map d v
      | some a => applyAct v (st.map d v) a := by
  simp only [processMetricRow, metricRowAct]
  by_cases hg : guardSkips (resolveVarIndex ctx row.variation) ctx.variationKeys.length = true
  · simp [hg]
  · by_cases hk : row.dimension = d ∧ resolveVarIndex ctx row.variation = v
    · obtain ⟨h1, h2⟩ := hk
      subst h1
      subst h2
      rw [if_neg hg, if_neg hg, if_pos ⟨rfl, rfl⟩]
      simp [setBucket, getDimensionData, applyAct]
    · rw [if_neg hg, if_neg hg, if_neg hk]
      show setBucket st.map row.dimension (resolveVarIndex ctx row.variation) _ d v = st.map d v
      simp only [setBucket]
      rw [if_neg]
      rintro ⟨h1, h2⟩
      exact hk ⟨h1.symm, h2.symm⟩

theorem processUsersRow_map (ctx : ExperimentContext)
    (st : MergeState) (row : ExperimentUsersRow) (d : String) (v : Option Int) :
    (processUsersRow ctx st row).map d v =
      match usersRowAct ctx d v row with
      | none => st.map d v
      | some a => applyAct v (st.map d v) a := by
  simp only [processUsersRow, usersRowAct]
  by_cases hg : guardSkips (resolveVarIndex ctx row.variation) ctx.variationKeys.length = true
  · simp [hg]
  · by_cases hk : row.dimension = d ∧ resolveVarIndex ctx row.variation = v
    · obtain ⟨h1, h2⟩ := hk
      subst h1
      subst h2
      rw [if_neg hg, if_neg hg, if_pos ⟨rfl, rfl⟩]
      simp [setBucket, getDimensionData, applyAct]
    · rw [if_neg hg, if_neg hg, if_neg hk]
      show setBucket st.map row.dimension (resolveVarIndex ctx row.variation) _ d v = st.map d v
      simp only [setBucket]
      rw [if_neg]
      rintro ⟨h1, h2⟩
      exact hk ⟨h1.symm, h2.symm⟩

theorem foldl_processMetricRow_map (ctx : ExperimentContext) (metricId : String)
    (d : String) (v : Option Int) :
    ∀ (rows : List ExperimentMetricRow) (st : MergeState),
      ((rows.foldl (processMetricRow ctx metricId) st).map d v) =
        (rows.filterMap (metricRowAct ctx metricId d v)).foldl (applyAct v) (st.map d v) := by
  intro rows
  induction rows with
  | nil => intro st; rfl
  | cons r rs ih =>
      intro st
      rw [List.foldl_cons, List.filterMap_cons]
      rcases h : metricRowAct ctx metricId d v r with _ | a
      · rw [ih, processMetricRow_map, h]
      · rw [List.foldl_cons, ih, processMetricRow_map, h]

theorem foldl_processUsersRow_map (ctx : ExperimentContext)
    (d : String) (v : Option Int) :
    ∀ (rows : List ExperimentUsersRow) (st : MergeState),
      ((rows.foldl (processUsersRow ctx) st).map d v) =
        (rows.filterMap (usersRowAct ctx d v)).foldl (applyAct v) (st.map d v) := by
  intro rows
  induction rows with
  | nil => intro st; rfl
  | cons r rs ih =>
      intro st
      rw [List.foldl_cons, List.filterMap_cons]
      rcases h : usersRowAct ctx d v r with _ | a
      · rw [ih, processUsersRow_map, h]
      · rw [List.foldl_cons, ih, processUsersRow_map, h]

theorem processOutcome_map (ctx : ExperimentContext) (st : MergeState)
    (o : QueryOutcome) (d : String) (v : Option Int) :
    (processOutcome ctx st o).map d v =
      (outcomeActs ctx d v o).foldl (applyAct v) (st.map d v) := by
  cases o with
  | metric id rows => exact foldl_processMetricRow_map ctx id d v rows st
  | users rows => exact foldl_processUsersRow_map ctx d v rows st

theorem foldl_processOutcome_map (ctx : ExperimentContext) (d : String) (v : Option Int) :
    ∀ (L : List QueryOutcome) (st : MergeState),
      ((L.foldl (processOutcome ctx) st).map d v) =
        (L.flatMap (outcomeActs ctx d v)).foldl (applyAct v) (st.map d v) := by
  intro L
  induction L with
  | nil => intro st; rfl
  | cons o L ih =>
      intro st
      rw [List.foldl_cons, List.flatMap_cons, List.foldl_append, ih, processOutcome_map]

/-- Per-bucket characterisation of the whole merge: the bucket at
`(d, v)` is the fold of the actions all completed queries direct at it,
in completion order. -/
theorem mergeOutcomes_map (ctx : ExperimentContext) (L : List QueryOutcome)
    (d : String) (v : Option Int) :
    (mergeOutcomes ctx L).map d v =
      (L.flatMap (outcomeActs ctx d v)).foldl (applyAct v) none :=
  foldl_processOutcome_map ctx d v L emptyMergeState

theorem foldl_applyAct_char (v : Option Int) :
    ∀ (acts : List BucketAct) (b : Option VariationBucket),
      acts.foldl (applyAct v) b =
        if acts.isEmpty then b
        else some
          { variation := (initBucket v b).variation
            users := lastWriteD (initBucket v b).users (actsUsersWrites acts)
            metrics := (initBucket v b).metrics ++ actsMetrics acts } := by
  intro acts
  induction acts with
  | nil => intro b; rfl
  | cons a rest ih =>
      intro b
      rw [List.foldl_cons, ih]
      cases rest with
      | nil =>
          cases a with
          | push e => simp [applyAct, initBucket, actsUsersWrites, actsMetrics, lastWriteD]
          | setU u => simp [applyAct, initBucket, actsUsersWrites, actsMetrics, lastWriteD]
      | cons a2 rest2 =>
          cases a with
          | push e =>
              simp [applyAct, initBucket, actsUsersWrites, actsMetrics, lastWriteD,
                List.filterMap_cons, List.append_assoc]
          | setU u =>
              simp [applyAct, initBucket, actsUsersWrites, actsMetrics, lastWriteD,
                List.filterMap_cons]

theorem metricRowAct_push (ctx : ExperimentContext) (metricId : String)
    (d : String) (v : Option Int) (row : ExperimentMetricRow) (a : BucketAct)
    (h : metricRowAct ctx metricId d v row = some a) :
    ∃ e, a = .push e := by
  simp only [metricRowAct] at h
  by_cases hg : guardSkips (resolveVarIndex ctx row.variation) ctx.variationKeys.length = true
  · rw [if_pos hg] at h
    exact absurd h (by simp)
  · rw [if_neg hg] at h
    by_cases hk : row.dimension = d ∧ resolveVarIndex ctx row.variation = v
    · rw [if_pos hk] at h
      exact ⟨_, (Option.some_injective _ h).symm⟩
    · rw [if_neg hk] at h
      exact absurd h (by simp)

theorem usersRowAct_setU (ctx : ExperimentContext)
    (d : String) (v : Option Int) (row : ExperimentUsersRow) (a : BucketAct)
    (h : usersRowAct ctx d v row = some a) :
    ∃ u, a = .setU u := by
  simp only [usersRowAct] at h
  by_cases hg : guardSkips (resolveVarIndex ctx row.variation) ctx.variationKeys.length = true
  · rw [if_pos hg] at h
    exact absurd h (by simp)
  · rw [if_neg hg] at h
    by_cases hk : row.dimension = d ∧ resolveVarIndex ctx row.variation = v
    · rw [if_pos hk] at h
      exact ⟨_, (Option.some_injective _ h).symm⟩
    · rw [if_neg hk] at h
      exact absurd h (by simp)

theorem actsUsersWrites_metric (ctx : ExperimentContext) (metricId : String)
    (d : String) (v : Option Int) (rows : List ExperimentMetricRow) :
    actsUsersWrites (outcomeActs ctx d v (.metric metricId rows)) = [] := by
  rw [outcomeActs, actsUsersWrites, List.filterMap_eq_nil_iff]
  intro a ha
  obtain ⟨r, _, hr⟩ := List.mem_filterMap.mp ha
  obtain ⟨e, rfl⟩ := metricRowAct_push ctx metricId d v r a hr
  rfl

theorem actsUsersWrites_flatMap (ctx : ExperimentContext) (d : String) (v : Option Int) :
    ∀ (L : List QueryOutcome),
      actsUsersWrites (L.flatMap (outcomeActs ctx d v)) =
        (L.filter isUsersOutcome).flatMap
          (fun o => actsUsersWrites (outcomeActs ctx d v o)) := by
  intro L
  induction L with
  | nil => rfl
  | cons o L ih =>
      rw [List.flatMap_cons, actsUsersWrites, List.filterMap_append]
      cases o with
      | metric id rows =>
          have h1 := actsUsersWrites_metric ctx id d v rows
          rw [actsUsersWrites] at h1
          rw [h1, List.nil_append, List.filter_cons]
          simp only [isUsersOutcome, Bool.false_eq_true, if_false]
          exact ih
      | users rows =>
          rw [List.filter_cons]
          simp only [isUsersOutcome, if_true]
          rw [List.flatMap_cons, ← ih]
          rfl

/-- A permutation of lists that agree on length at most one is an equality. -/
theorem perm_le_one_eq {α : Type} {l1 l2 : List α} (h : l1.Perm l2)
    (hlen : l1.length ≤ 1) : l1 = l2 := by
  match l1, hlen with
  | [], _ => exact (List.Perm.eq_nil h.symm).symm
  | [a], _ => exact ((List.perm_singleton).mp h.symm).symm

/-! ## Fixtures used by the claim theorems -/

/-- Default-merged empty settings, as the constructor produces for a source
with no overrides. -/
def defaultSettings : DataSourceSettings := mergeSettings {}

def sampleCountMetric : MetricInterface :=
  { id := "m-purchases", name := "Purchases", type := .count, table := "purchases",
    column := "", userIdType := .user, cap := 0, conditions := [],
    earlyStart := false, userIdColumn := none, anonymousIdColumn := none,
    timestampColumn := none }

/-- Key-format context with two declared variations, for C1. -/
def ctxKeyC1 : ExperimentContext :=
  { variationKeys := ["control", "treatment"], variationFormat := .key }

/-- Index-format context with two declared variations. -/
def ctxIndexTwo : ExperimentContext :=
  { variationKeys := ["0", "1"], variationFormat := .index }

def rowUnknownKeyC1 : ExperimentMetricRow :=
  { variation := "unknown", dimension := "All", count := "3", mean := "2", stddev := "1" }

def rowOutOfRangeC1 : ExperimentMetricRow :=
  { variation := "7", dimension := "All", count := "3", mean := "2", stddev := "1" }

/-! ## Claim theorems -/

/-- C1: the claim says every row whose variation does not resolve to an integer
index in `[0, variationCount)` — including an absent key under the "key" format
and an unparsable string under the "index" format — is dropped with a
diagnostic. The code's guard `varIndex < 0 || varIndex >= length` is false for
`undefined`/`NaN` (both comparisons are false in JS), so exactly those rows are
NOT dropped and NO diagnostic is emitted: the row's data lands in a bucket
stored under the non-index key (`obj[undefined]`). A genuinely numeric
out-of-range index (here `"7"`) is dropped with the diagnostic, as documented
by the code's own `console.log("Unexpected variation", ...)`. -/
theorem c1_unresolved_variation_not_dropped :
    resolveVarIndex ctxKeyC1 "unknown" = none ∧
    guardSkips (resolveVarIndex ctxKeyC1 "unknown") ctxKeyC1.variationKeys.length = false ∧
    (mergeOutcomes ctxKeyC1 [.metric "m1" [rowUnknownKeyC1]]).diagnostics = [] ∧
    (mergeOutcomes ctxKeyC1 [.metric "m1" [rowUnknownKeyC1]]).map "All" none =
      some { variation := none, users := 0,
             metrics := [{ metric := "m1", count := 3, mean := mkRat 2 1, stddev := mkRat 1 1 }] } ∧
    resolveVarIndex ctxIndexTwo "abc" = none ∧
    guardSkips (resolveVarIndex ctxIndexTwo "abc") ctxIndexTwo.variationKeys.length = false ∧
    (mergeOutcomes ctxIndexTwo [.metric "m1" [rowOutOfRangeC1]]).diagnostics =
      ["Unexpected variation 7"] ∧
    (mergeOutcomes ctxIndexTwo [.metric "m1" [rowOutOfRangeC1]]).map "All" (some 7) = none := by
  decide

/-- Refinement model of C2's wording: a conversion end equal to the event
timestamp plus the conversion window measured in HOURS. -/
def specConversionEndHours (col : String) (window : Nat) : String :=
  col ++ " + INTERVAL \x27" ++ toString window ++ " hours\x27"

/-- C2 counterexample: the conversion-end expression `getMetricCTE` composes via
`addDateInterval` measures the window in DAYS (`INTERVAL '3 days'`), not hours
as the claim states; at window 3 the two differ. -/
theorem c2_counterexample :
    addDateInterval ("m." ++ getTimestampColumn defaultSettings (some sampleCountMetric) .default) 3 =
      "m.received_at + INTERVAL \x273 days\x27" ∧
    addDateInterval ("m." ++ getTimestampColumn defaultSettings (some sampleCountMetric) .default) 3 ≠
      specConversionEndHours
        ("m." ++ getTimestampColumn defaultSettings (some sampleCountMetric) .default) 3 := by
  decide

/-- C2 amended: in every metric CTE composed by `getMetricCTE`, the
`conversion_end` column is the event timestamp plus the conversion-window
parameter measured in DAYS, and the `session_start` column is the event
timestamp minus 30 minutes. -/
theorem c2_amended (s : DataSourceSettings) (metric : MetricInterface)
    (w : Nat) (userId : Bool) :
    ∃ pre mid post,
      getMetricCTE s metric w userId =
        pre
          ++ ("m." ++ getTimestampColumn s (some metric) .default
              ++ " + INTERVAL \x27" ++ toString w ++ " days\x27 as conversion_end")
          ++ mid
          ++ ("m." ++ getTimestampColumn s (some metric) .default
              ++ " - INTERVAL \x2730 minutes\x27 as session_start")
          ++ post := by
  refine ⟨metricCTEhead s metric userId, ",\n        ", metricCTEtail s metric userId, ?_⟩
  simp [getMetricCTE, addDateInterval, subtractHalfHour, String.append_assoc]

/-- C3 counterexample days: six days of 60 users and one spurious 4-user day in
the middle. The code keeps the 4-user day (4 > threshold 3) for a total of 364;
the claim's pipeline discards it at the absolute 5-user floor, totalling 360. -/
def daysC3 : List ExperimentDateRow :=
  [⟨10, 60⟩, ⟨11, 60⟩, ⟨12, 60⟩, ⟨13, 60⟩, ⟨14, 60⟩, ⟨15, 4⟩, ⟨16, 60⟩]

/-- C3 counterexample: on `daysC3` with horizon 0, the composed query's
pipeline and the claim's narrated pipeline disagree (364 vs 360 total users):
the code's 5-user floor only limits which days enter the peak computation, it
does not discard low days that beat the 5% threshold. -/
theorem c3_counterexample :
    pastExperimentPipeline 0 daysC3 = some (10, 16, 364) ∧
    specPastExperimentPipeline 0 daysC3 = some (10, 16, 360) ∧
    pastExperimentPipeline 0 daysC3 ≠ specPastExperimentPipeline 0 daysC3 := by
  decide

/-- C3 amended: the discovery pipeline groups per experiment/variation/day,
computes the noise threshold as 5% of the peak among days with MORE THAN 5
users (a variation with no such day is dropped entirely), keeps exactly the
days whose count is STRICTLY ABOVE the threshold, collapses them to one
start/end/total row, and keeps rows with total users > 200, span > 5 days and
start more than 2 days after the horizon. -/
theorem c3_amended (fromDate : Int) (days : List ExperimentDateRow) :
    pastExperimentPipeline fromDate days = amendedPastExperimentPipeline fromDate days := by
  unfold pastExperimentPipeline variationsRow userThreshold amendedPastExperimentPipeline
  cases h : ((days.filter (fun d => 5 < d.users)).map (fun d => d.users)).max? with
  | none => simp [h]
  | some peak =>
      simp only [h, Option.map_some']
      have hfilter :
          days.filter (fun d => mkRat (peak * 5 : Nat) 100 < mkRat (d.users : Nat) 1) =
            days.filter (fun d => peak < 20 * d.users) := by
        apply List.filter_congr
        intro d _
        simp only [decide_eq_decide]
        exact threshold_lt_iff peak d.users
      rw [hfilter]
      cases hmin : ((days.filter (fun d => peak < 20 * d.users)).map (fun d => d.date)).min? with
      | none => simp [hmin]
      | some smin =>
          cases hmax : ((days.filter (fun d => peak < 20 * d.users)).map (fun d => d.date)).max? with
          | none => simp [hmin, hmax]
          | some emax => simp [hmin, hmax]

/-- C4 failing row: a users count that does not parse as a number. -/
def badPastRowC4 : PastExperimentResponseRow :=
  { experiment_id := "exp1", variation_id := "0", start_date := "2020-01-01",
    end_date := "2020-01-10", users := "abc" }

/-- C4 counterexample: `runPastExperimentQuery` parses `users` with a bare
`parseInt` and no `|| 0` default, so an unparsable count yields `NaN`
(modelled `none`), not the value 0 the claim asserts. -/
theorem c4_counterexample :
    (runPastExperimentQueryParse [badPastRowC4]).map (fun r => r.users) = [none] ∧
    (none : Option Int) ≠ some 0 := by
  decide

/-- C4 amended: in `runUsersQuery` and `runMetricValueQuery` every numeric
field (including percentile columns) whose text does not parse yields 0 and the
parse never raises or drops the row; `runPastExperimentQuery` also never raises
or drops a row, but parses `users` without a default, so an unparsable count
yields `NaN` rather than 0. -/
theorem c4_amended (s : String) (hI : jsParseInt s = none) (hF : jsParseFloat s = none) :
    orZeroI (jsParseInt s) = 0 ∧
    orZeroQ (jsParseFloat s) = 0 ∧
    (runUsersQueryParse [{ date := none, users := s }]).users = 0 ∧
    runMetricValueQueryParse
        [{ date := none, count := s, mean := s, stddev := s, percentiles := [("p50", s)] }] =
      { count := 0, mean := 0, stddev := 0, percentiles := [("50", 0)], dates := [] } ∧
    (∀ rows : List PastExperimentResponseRow,
      (runPastExperimentQueryParse rows).length = rows.length) ∧
    (runPastExperimentQueryParse
        [{ experiment_id := "e", variation_id := "v", start_date := "a",
           end_date := "b", users := s }]).map (fun r => r.users) = [none] := by
  refine ⟨?_, ?_, ?_, ?_, ?_, ?_⟩
  · rw [orZeroI, hI]; rfl
  · rw [orZeroQ, hF]; rfl
  · simp [runUsersQueryParse, dateTruthy, orZeroI, hI]
  · simp [runMetricValueQueryParse, dateTruthy, orZeroI, orZeroQ, hI, hF, stripLeadingP]
  · intro rows
    simp [runPastExperimentQueryParse]
  · simp [runPastExperimentQueryParse, hI]

/-- C4 witness: the amended statement applied at the concrete unparsable text
`"abc"`. -/
theorem c4_witness :
    (runUsersQueryParse [{ date := none, users := "abc" }]).users = 0 ∧
    (runPastExperimentQueryParse [badPastRowC4]).length = 1 ∧
    (runPastExperimentQueryParse
        [{ experiment_id := "e", variation_id := "v", start_date := "a",
           end_date := "b", users := "abc" }]).map (fun r => r.users) = [none] := by
  have h := c4_amended "abc" (by decide) (by decide)
  exact ⟨h.2.2.1, h.2.2.2.2.1 [badPastRowC4], h.2.2.2.2.2⟩

/-- C5: for a count/duration/revenue metric with cap `C > 0`,
`getAggregateMetricSqlValue` is the type's aggregate (`COUNT(DISTINCT value)`
when a value column is configured else `COUNT(*)` for count; `MAX(value)` for
duration and revenue) clamped via `LEAST(C, ...)` — whose semantics `min C v`
never exceeds `C`; with cap 0 no clamp is applied; for a binomial metric the
aggregate is the constant `1` and no cap is ever applied. -/
theorem c5_cap_clamps_aggregate (m : MetricInterface) (col : String) :
    (0 < m.cap →
      ((m.type = .count →
          getAggregateMetricSqlValue m col =
            "LEAST(" ++ toString m.cap ++ ", "
              ++ ("COUNT(" ++ (if m.column ≠ "" then "DISTINCT " ++ col else "*") ++ ")")
              ++ ")") ∧
        (m.type = .duration →
          getAggregateMetricSqlValue m col =
            "LEAST(" ++ toString m.cap ++ ", " ++ ("MAX(" ++ col ++ ")") ++ ")") ∧
        (m.type = .revenue →
          getAggregateMetricSqlValue m col =
            "LEAST(" ++ toString m.cap ++ ", " ++ ("MAX(" ++ col ++ ")") ++ ")") ∧
        ∀ v : ℚ, leastSem (m.cap : ℚ) v ≤ (m.cap : ℚ))) ∧
    (m.cap = 0 →
      ((m.type = .count →
          getAggregateMetricSqlValue m col =
            "COUNT(" ++ (if m.column ≠ "" then "DISTINCT " ++ col else "*") ++ ")") ∧
        (m.type = .duration → getAggregateMetricSqlValue m col = "MAX(" ++ col ++ ")") ∧
        (m.type = .revenue → getAggregateMetricSqlValue m col = "MAX(" ++ col ++ ")"))) ∧
    (m.type = .binomial → getAggregateMetricSqlValue m col = "1") := by
  refine ⟨fun hcap => ?_, fun hcap => ?_, fun ht => ?_⟩
  · have hne : m.cap ≠ 0 := by omega
    refine ⟨fun ht => ?_, fun ht => ?_, fun ht => ?_, fun v => min_le_left _ _⟩ <;>
      simp [getAggregateMetricSqlValue, capValue, ht, hne, String.append_assoc]
  · refine ⟨fun ht => ?_, fun ht => ?_, fun ht => ?_⟩ <;>
      simp [getAggregateMetricSqlValue, capValue, ht, hcap]
  · simp [getAggregateMetricSqlValue, ht]

def metricC5 : MetricInterface :=
  { id := "m-cap", name := "Cart items", type := .count, table := "cart_items",
    column := "", userIdType := .user, cap := 5, conditions := [],
    earlyStart := false, userIdColumn := none, anonymousIdColumn := none,
    timestampColumn := none }

/-- C5 witness: the theorem applied to a count metric with cap 5. -/
theorem c5_witness :
    getAggregateMetricSqlValue metricC5 "m.value" = "LEAST(5, COUNT(*))" ∧
    leastSem ((metricC5.cap : Int) : ℚ) 7 ≤ ((metricC5.cap : Int) : ℚ) := by
  have h := (c5_cap_clamps_aggregate metricC5 "m.value").1 (by decide)
  refine ⟨?_, h.2.2.2 7⟩
  rw [h.1 rfl]
  decide

/-- C6: when the requested identifier space differs from the metric's native
space, the metric CTE selects its user id through the identify alias
(`i.user_id`, never a column on the primary alias `m`) and carries exactly one
identify join, which aliases the identifies table with the single letter `i`
(distinct from the primary alias `m`) and bridges the metric's native id
column; when the spaces match there is no identify join and the id is read
directly off the primary alias `m`. -/
theorem c6_identity_bridge (s : DataSourceSettings) (metric : MetricInterface)
    (userId : Bool) :
    (metricIdMismatch metric userId →
      metricCTEuserIdCol s metric userId = "i.user_id" ∧
      metricCTEjoin s metric userId =
        some ("JOIN " ++ jsStrChain [s.identifies.table] "identifies" ++ " i ON (\n      i."
          ++ (if userId then getAnonymousIdColumn s none .identifies
              else getUserIdColumn s none .identifies)
          ++ " = " ++ ("m." ++ (if userId then getAnonymousIdColumn s (some metric) .default
              else getUserIdColumn s (some metric) .default))
          ++ "\n    )") ∧
      "i" ≠ "m") ∧
    (¬ metricIdMismatch metric userId →
      metricCTEjoin s metric userId = none ∧
      metricCTEuserIdCol s metric userId =
        "m." ++ (if userId then getUserIdColumn s (some metric) .default
                 else getAnonymousIdColumn s (some metric) .default)) := by
  cases userId <;> cases hm : metric.userIdType <;>
    simp [metricIdMismatch, metricCTEuserIdCol, metricCTEjoin, getIdentifiesJoinSql, hm]

def metricC6 : MetricInterface :=
  { id := "m-anon", name := "Clicks", type := .binomial, table := "clicks",
    column := "", userIdType := .anonymous, cap := 0, conditions := [],
    earlyStart := false, userIdColumn := none, anonymousIdColumn := none,
    timestampColumn := none }

/-- C6 witness: a user-space request against an anonymous-native metric under
default settings bridges through `identifies i` and selects `i.user_id`. -/
theorem c6_witness :
    metricCTEuserIdCol defaultSettings metricC6 true = "i.user_id" ∧
    metricCTEjoin defaultSettings metricC6 true =
      some "JOIN identifies i ON (\n      i.anonymous_id = m.anonymous_id\n    )" := by
  have h := (c6_identity_bridge defaultSettings metricC6 true).1 (Or.inl ⟨rfl, rfl⟩)
  refine ⟨h.1, ?_⟩
  rw [h.2.1]
  decide

/-- C7: with percentiles requested, the terminal SELECT of
`getMetricValueQuery` carries the percentile columns
p1, p5, p10, p20, ..., p90, p95, p99 exactly when the metric is not binomial;
for a binomial metric no percentile column appears at all (neither in the
overall row nor in the per-date UNION branch). -/
theorem c7_percentile_ladder (s : DataSourceSettings)
    (percentile : String → ℚ → String) (p : MetricValueParams)
    (hp : p.includePercentiles = true) :
    ((metricValuePercentileSelects percentile p).map Prod.fst =
        ["p1", "p5", "p10", "p20", "p30", "p40", "p50", "p60", "p70", "p80",
          "p90", "p95", "p99"] ↔ p.metric.type ≠ .binomial) ∧
    (p.metric.type = .binomial →
      metricValuePercentileSelects percentile p = [] ∧
      metricValueUnionPercentileSelects p = []) ∧
    (∃ pre post,
      getMetricValueQuery s percentile p =
        pre ++ renderPercentileFragment (metricValuePercentileSelects percentile p) ++ post) := by
  refine ⟨?_, ?_, ?_⟩
  · by_cases hb : p.metric.type = .binomial
    · simp [metricValuePercentileSelects, hp, hb]
    · simp only [metricValuePercentileSelects, hp, hb, true_and, ne_eq,
        not_false_iff, iff_true, if_pos]
      rw [List.map_map,
        show (Prod.fst ∘ fun n => (percentileColName n, percentile "value" n)) =
          fun n => percentileColName n from rfl]
      decide
  · intro hb
    simp [metricValuePercentileSelects, metricValueUnionPercentileSelects, hb]
  · refine ⟨metricValueQueryHead s p,
      "\n      from\n        __userMetric\n      "
        ++ (if p.includeByDate then
              metricValueUnionHead
                ++ renderPercentileFragment (metricValueUnionPercentileSelects p)
                ++ metricValueUnionTail
            else ""), ?_⟩
    simp [getMetricValueQuery, String.append_assoc]

def durationMetricC7 : MetricInterface :=
  { id := "m-dur", name := "Session length", type := .duration, table := "sessions",
    column := "len", userIdType := .user, cap := 0, conditions := [],
    earlyStart := false, userIdColumn := none, anonymousIdColumn := none,
    timestampColumn := none }

def paramsC7 : MetricValueParams :=
  { name := "q", metric := durationMetricC7, conversionWindow := 3,
    userIdType := .user, includeByDate := false, includePercentiles := true,
    urlRegex := "", segmentQuery := none, segmentName := "",
    fromDate := ⟨"2020-01-01", "00:00:00"⟩, toDate := ⟨"2020-02-01", "00:00:00"⟩ }

def paramsC7binomial : MetricValueParams :=
  { paramsC7 with metric := { durationMetricC7 with type := .binomial } }

def samplePercentileFn (col : String) (n : ℚ) : String :=
  "APPROX_QUANTILE(" ++ col ++ ", " ++ toString (Rat.floor (timesHundred n)) ++ ")"

/-- C7 witness: the ladder is present for a duration metric and empty for the
binomial metric with identical other inputs. -/
theorem c7_witness :
    (metricValuePercentileSelects samplePercentileFn paramsC7).map Prod.fst =
      ["p1", "p5", "p10", "p20", "p30", "p40", "p50", "p60", "p70", "p80",
        "p90", "p95", "p99"] ∧
    metricValuePercentileSelects samplePercentileFn paramsC7binomial = [] := by
  have h1 := c7_percentile_ladder defaultSettings samplePercentileFn paramsC7 rfl
  have h2 := c7_percentile_ladder defaultSettings samplePercentileFn paramsC7binomial rfl
  exact ⟨h1.1.mpr (by decide), (h2.2.1 rfl).1⟩

/-! ### C8: order-(in)dependence of the result merge -/

def rowC8 : ExperimentMetricRow :=
  { variation := "0", dimension := "All", count := "3", mean := "2", stddev := "1" }

def outcomeM1C8 : QueryOutcome := .metric "m1" [rowC8]

def outcomeM2C8 : QueryOutcome := .metric "m2" [rowC8]

/-- C8 counterexample: two metric queries whose row sets are identical, merged
in the two possible completion orders, produce different final structures —
the per-metric summary list of the touched bucket is `[m1, m2]` in one order
and `[m2, m1]` in the other. -/
theorem c8_counterexample :
    (mergeOutcomes ctxIndexTwo [outcomeM1C8, outcomeM2C8]).map "All" (some 0) ≠
      (mergeOutcomes ctxIndexTwo [outcomeM2C8, outcomeM1C8]).map "All" (some 0) := by
  decide

/-- C8 amended: across any two completion orders of the same queries (with at
most one users query among them), the merged structure is identical up to the
order of each bucket's per-metric summary list: every bucket exists in one
order exactly when it exists in the other, and then agrees on its variation,
its users count, and the multiset of its per-metric summaries. -/
theorem c8_amended (ctx : ExperimentContext) (L L2 : List QueryOutcome)
    (hperm : L.Perm L2) (husers : L.countP isUsersOutcome ≤ 1)
    (d : String) (v : Option Int) :
    ((mergeOutcomes ctx L).map d v = none ↔ (mergeOutcomes ctx L2).map d v = none) ∧
    ∀ b b2, (mergeOutcomes ctx L).map d v = some b →
      (mergeOutcomes ctx L2).map d v = some b2 →
      b.variation = b2.variation ∧ b.users = b2.users ∧ b.metrics.Perm b2.metrics := by
  have hA : (L.flatMap (outcomeActs ctx d v)).Perm (L2.flatMap (outcomeActs ctx d v)) :=
    List.Perm.flatMap_right _ hperm
  have hwrites : actsUsersWrites (L.flatMap (outcomeActs ctx d v)) =
      actsUsersWrites (L2.flatMap (outcomeActs ctx d v)) := by
    rw [actsUsersWrites_flatMap, actsUsersWrites_flatMap]
    have hfl : L.filter isUsersOutcome = L2.filter isUsersOutcome := by
      apply perm_le_one_eq (hperm.filter isUsersOutcome)
      rw [← List.countP_eq_length_filter]
      exact husers
    rw [hfl]
  have hmetrics : (actsMetrics (L.flatMap (outcomeActs ctx d v))).Perm
      (actsMetrics (L2.flatMap (outcomeActs ctx d v))) :=
    List.Perm.filterMap _ hA
  rw [mergeOutcomes_map, mergeOutcomes_map, foldl_applyAct_char, foldl_applyAct_char]
  by_cases hAe : L.flatMap (outcomeActs ctx d v) = []
  · have hA2e : L2.flatMap (outcomeActs ctx d v) = [] :=
      List.Perm.eq_nil ((hAe ▸ hA : ([] : List BucketAct).Perm _).symm)
    simp [hAe, hA2e]
  · have hA2e : L2.flatMap (outcomeActs ctx d v) ≠ [] := by
      intro h2
      exact hAe (List.Perm.eq_nil (h2 ▸ hA))
    rw [if_neg (by simp [hAe]), if_neg (by simp [hA2e])]
    refine ⟨by simp, ?_⟩
    intro b b2 hb hb2
    rw [← Option.some_inj.mp hb, ← Option.some_inj.mp hb2]
    refine ⟨rfl, ?_, ?_⟩
    · simp only [actsUsersWrites] at hwrites
      simp [actsUsersWrites, hwrites]
    · simp only [initBucket, Option.getD_none, List.nil_append]
      exact hmetrics

def bucketC8L : VariationBucket :=
  { variation := some 0, users := 0,
    metrics := [metricRowEntry "m1" rowC8, metricRowEntry "m2" rowC8] }

def bucketC8R : VariationBucket :=
  { variation := some 0, users := 0,
    metrics := [metricRowEntry "m2" rowC8, metricRowEntry "m1" rowC8] }

/-- C8 witness: the amended statement applied to the two concrete completion
orders of `c8_counterexample` — the buckets agree on users and variation, and
their metric lists are permutations of each other. -/
theorem c8_witness :
    bucketC8L.variation = bucketC8R.variation ∧
    bucketC8L.users = bucketC8R.users ∧
    bucketC8L.metrics.Perm bucketC8R.metrics := by
  have h := c8_amended ctxIndexTwo [outcomeM1C8, outcomeM2C8] [outcomeM2C8, outcomeM1C8]
    (List.Perm.swap _ _ _) (by decide) "All" (some 0)
  exact h.2 bucketC8L bucketC8R (by decide) (by decide)

/-- C9: when all three queries of `getImpactEstimation` return empty row sets,
the result is `{users: 0, value: 0, metricTotal: 0}`, its query field is the
non-empty audit string concatenating the three composed (formatted) SQL texts,
and nothing raises (the model is a total function). -/
theorem c9_empty_rows_zero_result (format : String → String)
    (usersSql metricSql valueSql : String) :
    getImpactEstimation format usersSql metricSql valueSql [] [] [] =
      { query := String.intercalate ";\n\n" ([usersSql, metricSql, valueSql].map format) ++ ";",
        users := 0, value := 0, metricTotal := 0 } ∧
    (getImpactEstimation format usersSql metricSql valueSql [] [] []).query ≠ "" := by
  refine ⟨rfl, ?_⟩
  intro h
  have hl := congrArg String.length h
  rw [show (getImpactEstimation format usersSql metricSql valueSql [] [] []).query =
    String.intercalate ";\n\n" ([usersSql, metricSql, valueSql].map format) ++ ";" from rfl,
    String.length_append, show (";").length = 1 from rfl,
    show ("" : String).length = 0 from rfl] at hl
  omega

/-- C10: with the by-date breakdown and percentiles requested for a
non-binomial metric, every percentile column of the per-date UNION branch is
the literal constant `0`, while the dialect's percentile expressions are
applied only in the overall (date-less) select. -/
theorem c10_union_percentiles_zero (s : DataSourceSettings)
    (percentile : String → ℚ → String) (p : MetricValueParams)
    (h1 : p.includeByDate = true) (h2 : p.includePercentiles = true)
    (h3 : p.metric.type ≠ .binomial) :
    metricValueUnionPercentileSelects p =
      percentileNumbers.map (fun n => (percentileColName n, "0")) ∧
    (∀ c ∈ metricValueUnionPercentileSelects p, c.2 = "0") ∧
    metricValuePercentileSelects percentile p =
      percentileNumbers.map (fun n => (percentileColName n, percentile "value" n)) ∧
    ∃ pre mid post,
      getMetricValueQuery s percentile p =
        pre ++ renderPercentileFragment (metricValuePercentileSelects percentile p)
          ++ mid ++ renderPercentileFragment (metricValueUnionPercentileSelects p)
          ++ post := by
  refine ⟨?_, ?_, ?_, ?_⟩
  · simp [metricValueUnionPercentileSelects, h2, h3]
  · intro c hc
    simp only [metricValueUnionPercentileSelects, h2, h3, ne_eq, not_false_iff,
      true_and, if_pos] at hc
    obtain ⟨n, _, rfl⟩ := List.mem_map.mp hc
    rfl
  · simp [metricValuePercentileSelects, h2, h3]
  · refine ⟨metricValueQueryHead s p,
      "\n      from\n        __userMetric\n      " ++ metricValueUnionHead,
      metricValueUnionTail, ?_⟩
    rw [getMetricValueQuery, if_pos h1]
    simp [String.append_assoc]

def paramsC10 : MetricValueParams :=
  { paramsC7 with includeByDate := true }

/-- C10 witness: the theorem applied to a duration metric with by-date and
percentiles requested — every per-date percentile expression is `"0"`. -/
theorem c10_witness :
    (metricValueUnionPercentileSelects paramsC10).map Prod.snd =
      ["0", "0", "0", "0", "0", "0", "0", "0", "0", "0", "0", "0", "0"] := by
  have h := c10_union_percentiles_zero defaultSettings samplePercentileFn paramsC10
    rfl rfl (by decide)
  rw [h.1]
  decide

end GrowthBook
